import Mathlib

/-!
Verification development for the prompt-template management package
(`prompt_management_methods` plus the top-level `load_prompt_template`).

The package is a thin convenience layer over an external LLM-orchestration
library.  We embed it shallowly:

* a filesystem path is the list of its components; pathlib's `/` operator
  appends components;
* the external library's constructors (`PromptTemplate.from_file`,
  `SystemMessagePromptTemplate.from_template`, `ChatPromptTemplate.from_messages`,
  `MessagesPlaceholder`, `.invoke`) are modelled as records of the arguments
  they were called with, together with the validation behaviour the package
  relies on (missing-input-variable checking in `invoke`);
* the templating engine itself (variable extraction from a template string and
  rendering) is out of scope for the package, so it is an explicit parameter
  `Jinja` of the model;
* every file-reading operation additionally returns a trace of `FileRead`
  records, capturing which path was read and which text encoding was passed
  to the reading call.
-/

namespace PromptCollection

/-- A filesystem path: the list of its components.  pathlib's `/` operator
appends components, which we model with list append. -/
abbrev Path := List String

/-- Record of one file-reading call: the path that was read and the text
encoding passed to the call (`encoding='utf-8'` in the sources). -/
structure FileRead where
  path : Path
  encoding : String
deriving DecidableEq, Repr

/-- The filesystem, giving the decoded text content of the file at each path. -/
abbrev FS := Path → String

/-- The `template_format` flag of the external library.  The library default
is `fString`; the package passes `jinja2` everywhere except the deprecated
txt loader. -/
inductive TemplateFormat
  | fString
  | jinja2
deriving DecidableEq, Repr

/-- Message roles distinguished by the package: system, human and ai. -/
inductive Role
  | system
  | human
  | ai
deriving DecidableEq, Repr

/-- A concrete chat message of the external library. -/
structure BaseMessage where
  role : Role
  content : String
deriving DecidableEq, Repr

/-- A value in a format kwargs dict: either a plain string or a list of
messages (the value a `MessagesPlaceholder` key expects). -/
inductive Value
  | str (s : String)
  | msgs (ms : List BaseMessage)
deriving DecidableEq, Repr

/-- A kwargs dict, as an association list from variable names to values. -/
abbrev Kwargs := List (String × Value)

/-- Model of the external templating engine: how the library extracts input
variables from a template string and how it renders a template against a
kwargs dict.  Template rendering is delegated to the engine and is a
non-goal of the package, so both operations are parameters of the model. -/
structure Jinja where
  extractVars : String → List String
  render : String → Kwargs → String

/-- Model of the external library's `PromptTemplate`: the template text, the
`template_format` flag it was constructed with, and the input variables the
library extracted from the text. -/
structure PromptTemplate where
  template : String
  template_format : TemplateFormat
  input_variables : List String
deriving DecidableEq, Repr

/-- Model of `PromptTemplate.from_file(template_file, template_format, encoding)`:
reads the file at the path (the trace records the encoding passed) and builds
the prompt template. -/
def PromptTemplate.from_file (J : Jinja) (fs : FS) (template_file : Path)
    (template_format : TemplateFormat) (encoding : String) :
    PromptTemplate × List FileRead :=
  ({ template := fs template_file,
     template_format := template_format,
     input_variables := J.extractVars (fs template_file) },
   [{ path := template_file, encoding := encoding }])

/-- Model of the external library's message prompt templates
(`SystemMessagePromptTemplate`, `HumanMessagePromptTemplate`,
`AIMessagePromptTemplate` are one underlying class distinguished by role). -/
structure MessagePromptTemplate where
  role : Role
  template : String
  template_format : TemplateFormat
  input_variables : List String
deriving DecidableEq, Repr

/-- Model of `SystemMessagePromptTemplate.from_template(template, template_format)`. -/
def SystemMessagePromptTemplate.from_template (J : Jinja) (template : String)
    (template_format : TemplateFormat) : MessagePromptTemplate :=
  { role := Role.system, template := template, template_format := template_format,
    input_variables := J.extractVars template }

/-- Model of `HumanMessagePromptTemplate.from_template(template, template_format)`. -/
def HumanMessagePromptTemplate.from_template (J : Jinja) (template : String)
    (template_format : TemplateFormat) : MessagePromptTemplate :=
  { role := Role.human, template := template, template_format := template_format,
    input_variables := J.extractVars template }

/-- Model of `AIMessagePromptTemplate.from_template(template, template_format)`. -/
def AIMessagePromptTemplate.from_template (J : Jinja) (template : String)
    (template_format : TemplateFormat) : MessagePromptTemplate :=
  { role := Role.ai, template := template, template_format := template_format,
    input_variables := J.extractVars template }

/-- Model of `.format(**kwargs)` on a message prompt template: renders the
template through the engine.  With jinja-style templates the library's
`format` itself is lenient about missing variables; validation happens in
`ChatPromptTemplate.invoke`. -/
def MessagePromptTemplate.format (t : MessagePromptTemplate) (J : Jinja)
    (kw : Kwargs) : BaseMessage :=
  { role := t.role, content := J.render t.template kw }

/-- An entry of a `ChatPromptTemplate`: a message prompt template, an
already-formatted message, or a `MessagesPlaceholder(key)`. -/
inductive MessageLike
  | tmpl : MessagePromptTemplate → MessageLike
  | msg : BaseMessage → MessageLike
  | placeholder : String → MessageLike
deriving DecidableEq, Repr

/-- Model of the external library's `ChatPromptTemplate`: the message list it
was built from and the `template_format` flag it was given (the bare
constructor leaves the library default, `fString`). -/
structure ChatPromptTemplate where
  messages : List MessageLike
  template_format : TemplateFormat
deriving DecidableEq, Repr

/-- Model of `ChatPromptTemplate.from_messages(messages, template_format)`. -/
def ChatPromptTemplate.from_messages (messages : List MessageLike)
    (template_format : TemplateFormat) : ChatPromptTemplate :=
  { messages := messages, template_format := template_format }

/-- The input variables one entry contributes to the chat template's required
variables: a template's extracted variables, nothing for a concrete message,
and the key for a placeholder. -/
def MessageLike.input_variables : MessageLike → List String
  | MessageLike.tmpl t => t.input_variables
  | MessageLike.msg _ => []
  | MessageLike.placeholder k => [k]

/-- The input variables the library requires `invoke` to be given. -/
def ChatPromptTemplate.input_variables (c : ChatPromptTemplate) : List String :=
  c.messages.flatMap MessageLike.input_variables

/-- Model of the library's `ChatPromptValue`, the result of `invoke`. -/
structure ChatPromptValue where
  messages : List BaseMessage
deriving DecidableEq, Repr

/-- Model of `ChatPromptValue.to_messages()`. -/
def ChatPromptValue.to_messages (v : ChatPromptValue) : List BaseMessage :=
  v.messages

/-- Formatting one chat-template entry against the input dict: a template is
rendered, a message passes through, a placeholder expands to the list of
messages bound to its key (anything else there is an error). -/
def expandMessage (J : Jinja) (input : Kwargs) :
    MessageLike → Except String (List BaseMessage)
  | MessageLike.tmpl t => Except.ok [t.format J input]
  | MessageLike.msg m => Except.ok [m]
  | MessageLike.placeholder k =>
    match input.lookup k with
    | some (Value.msgs ms) => Except.ok ms
    | _ => Except.error ("variable " ++ k ++ " should be a list of base messages")

/-- Formatting every entry of a chat template, first error wins. -/
def expandAll (J : Jinja) (input : Kwargs) :
    List MessageLike → Except String (List BaseMessage)
  | [] => Except.ok []
  | m :: rest =>
    match expandMessage J input m with
    | Except.error e => Except.error e
    | Except.ok ms =>
      match expandAll J input rest with
      | Except.error e => Except.error e
      | Except.ok rs => Except.ok (ms ++ rs)

/-- Model of `ChatPromptTemplate.invoke(input)`: the library's own validation
path.  It first checks that every required input variable is a key of the
input dict, raising a missing-variable error otherwise, and only then formats
the entries. -/
def ChatPromptTemplate.invoke (c : ChatPromptTemplate) (J : Jinja)
    (input : Kwargs) : Except String ChatPromptValue :=
  if c.input_variables.all (fun v => (input.lookup v).isSome) then
    match expandAll J input c.messages with
    | Except.error e => Except.error e
    | Except.ok ms => Except.ok { messages := ms }
  else
    Except.error "missing variables"

/-! ### The package's own functions

Shallow embeddings of `safe_format_message_prompt_template.py`,
`prompt_template_loader.py`, `base_prompt_template_factory.py` and the
top-level `load_prompt_template.py`.  File-reading functions additionally
return the trace of `FileRead` calls they performed. -/

/-- An element of the list `safe_format_message_prompt_template` accepts:
`BaseMessagePromptTemplate | BaseMessage`. -/
abbrev MessageOrTemplate := Sum MessagePromptTemplate BaseMessage

/-- How `ChatPromptTemplate(messages=...)` takes each list element. -/
def toMessageLike : MessageOrTemplate → MessageLike
  | Sum.inl t => MessageLike.tmpl t
  | Sum.inr m => MessageLike.msg m

/-- Embedding of `safe_format_message_prompt_template(message_prompt_templates, format_kwargs)`
from `safe_format_message_prompt_template.py`: builds a `ChatPromptTemplate`
over the list with the bare constructor (the library default `fString` flag
stays), invokes it with `format_kwargs` so that a missing variable surfaces
through the library's own validation path, and returns `to_messages()` of the
resulting chat prompt value. -/
def safe_format_message_prompt_template (J : Jinja)
    (message_prompt_templates : List MessageOrTemplate)
    (format_kwargs : Kwargs) : Except String (List BaseMessage) :=
  let chat_prompt_template : ChatPromptTemplate :=
    { messages := message_prompt_templates.map toMessageLike,
      template_format := TemplateFormat.fString }
  match chat_prompt_template.invoke J format_kwargs with
  | Except.error e => Except.error e
  | Except.ok chat_prompt_value => Except.ok chat_prompt_value.to_messages

/-- Embedding of `load_prompt_template(prompt_template_path)` from the top-level
`load_prompt_template.py`: opens the file with `encoding='utf-8'` and returns
its text. -/
def load_prompt_template (fs : FS) (prompt_template_path : Path) :
    String × List FileRead :=
  (fs prompt_template_path, [{ path := prompt_template_path, encoding := "utf-8" }])

namespace PromptTemplateLoader

/-- Embedding of `PromptTemplateLoader.load_prompt_template_from_j2`: calls
`PromptTemplate.from_file` with `template_format='jinja2'` and
`encoding='utf-8'`. -/
def load_prompt_template_from_j2 (J : Jinja) (fs : FS)
    (prompt_template_path : Path) : PromptTemplate × List FileRead :=
  PromptTemplate.from_file J fs prompt_template_path TemplateFormat.jinja2 "utf-8"

/-- Embedding of `PromptTemplateLoader.load_system_message_prompt_template_from_j2`: reads
the file with `read_text(encoding='utf-8')`, then calls
`SystemMessagePromptTemplate.from_template` with `template_format='jinja2'`. -/
def load_system_message_prompt_template_from_j2 (J : Jinja) (fs : FS)
    (system_message_prompt_template_path : Path) :
    MessagePromptTemplate × List FileRead :=
  let template := fs system_message_prompt_template_path
  (SystemMessagePromptTemplate.from_template J template TemplateFormat.jinja2,
   [{ path := system_message_prompt_template_path, encoding := "utf-8" }])

/-- Embedding of `PromptTemplateLoader.load_human_message_prompt_template_from_j2`: reads
the file with `read_text(encoding='utf-8')`, then calls
`HumanMessagePromptTemplate.from_template` with `template_format='jinja2'`. -/
def load_human_message_prompt_template_from_j2 (J : Jinja) (fs : FS)
    (human_message_prompt_template_path : Path) :
    MessagePromptTemplate × List FileRead :=
  let template := fs human_message_prompt_template_path
  (HumanMessagePromptTemplate.from_template J template TemplateFormat.jinja2,
   [{ path := human_message_prompt_template_path, encoding := "utf-8" }])

/-- Embedding of `PromptTemplateLoader.load_ai_message_prompt_template_from_j2`: reads the
file with `read_text(encoding='utf-8')`, then calls
`AIMessagePromptTemplate.from_template` with `template_format='jinja2'`. -/
def load_ai_message_prompt_template_from_j2 (J : Jinja) (fs : FS)
    (ai_message_prompt_template_path : Path) :
    MessagePromptTemplate × List FileRead :=
  let template := fs ai_message_prompt_template_path
  (AIMessagePromptTemplate.from_template J template TemplateFormat.jinja2,
   [{ path := ai_message_prompt_template_path, encoding := "utf-8" }])

/-- Embedding of `PromptTemplateLoader.load_message_prompt_template_from_j2`: dispatches on
`message_type` to the system/human/ai loader; a `message_type` outside the
three listed values falls through every branch, so Python returns `None`
without reading anything (modelled by `(none, [])`), despite the declared
return type `BaseMessagePromptTemplate`. -/
def load_message_prompt_template_from_j2 (J : Jinja) (fs : FS)
    (message_prompt_template_path : Path) (message_type : String) :
    Option MessagePromptTemplate × List FileRead :=
  if message_type = "system" then
    let r := load_system_message_prompt_template_from_j2 J fs message_prompt_template_path
    (some r.1, r.2)
  else if message_type = "human" then
    let r := load_human_message_prompt_template_from_j2 J fs message_prompt_template_path
    (some r.1, r.2)
  else if message_type = "ai" then
    let r := load_ai_message_prompt_template_from_j2 J fs message_prompt_template_path
    (some r.1, r.2)
  else
    (none, [])

/-- Embedding of `PromptTemplateLoader.load_chat_prompt_template_from_j2`: loads the system
message prompt template from the path and builds
`ChatPromptTemplate.from_messages([system_message_prompt_template,
MessagesPlaceholder(message_place_holder_key)], template_format='jinja2')`.
The Python parameter `message_place_holder_key` defaults to `'chat_history'`;
here the key is explicit and callers that relied on the default pass
`"chat_history"`. -/
def load_chat_prompt_template_from_j2 (J : Jinja) (fs : FS)
    (system_message_prompt_template_path : Path)
    (message_place_holder_key : String) : ChatPromptTemplate × List FileRead :=
  let r := load_system_message_prompt_template_from_j2 J fs
    system_message_prompt_template_path
  (ChatPromptTemplate.from_messages
    [MessageLike.tmpl r.1, MessageLike.placeholder message_place_holder_key]
    TemplateFormat.jinja2,
   r.2)

/-- Embedding of `load_chat_prompt_template_from_j2` called without the optional key, i.e.
with the Python default `'chat_history'`. -/
def load_chat_prompt_template_from_j2_default (J : Jinja) (fs : FS)
    (system_message_prompt_template_path : Path) :
    ChatPromptTemplate × List FileRead :=
  load_chat_prompt_template_from_j2 J fs system_message_prompt_template_path
    "chat_history"

/-- Python truthiness of an `Optional[dict]`: `None` and the empty dict are
both falsy. -/
def dictTruthy : Option Kwargs → Bool
  | none => false
  | some k => !k.isEmpty

/-- Embedding of `PromptTemplateLoader.safe_load_chat_prompt_template_from_j2`: loads the
system message prompt template, immediately formats it (with the kwargs if
they are truthy, with no arguments otherwise — the source's compatibility
branch for `None`), and builds `ChatPromptTemplate.from_messages([formatted
system message, MessagesPlaceholder(key)], template_format='jinja2')`. -/
def safe_load_chat_prompt_template_from_j2 (J : Jinja) (fs : FS)
    (system_message_prompt_template_path : Path)
    (system_message_prompt_template_format_kwargs : Option Kwargs)
    (message_place_holder_key : String) : ChatPromptTemplate × List FileRead :=
  let r := load_system_message_prompt_template_from_j2 J fs
    system_message_prompt_template_path
  let system_message :=
    if dictTruthy system_message_prompt_template_format_kwargs then
      r.1.format J (system_message_prompt_template_format_kwargs.getD [])
    else
      r.1.format J []
  (ChatPromptTemplate.from_messages
    [MessageLike.msg system_message, MessageLike.placeholder message_place_holder_key]
    TemplateFormat.jinja2,
   r.2)

/-- Deprecated `PromptTemplateLoader.load_prompt_template_from_txt`: the same
`PromptTemplate.from_file` call, but with `template_format='f-string'`. -/
def load_prompt_template_from_txt (J : Jinja) (fs : FS)
    (prompt_template_path : Path) : PromptTemplate × List FileRead :=
  PromptTemplate.from_file J fs prompt_template_path TemplateFormat.fString "utf-8"

/-- Deprecated `PromptTemplateLoader.load_original_txt`: reads the file with
`read_text(encoding='utf-8')` and returns the text. -/
def load_original_txt (fs : FS) (file_path : Path) : String × List FileRead :=
  (fs file_path, [{ path := file_path, encoding := "utf-8" }])

end PromptTemplateLoader

/-- Embedding of `BasePromptTemplateFactory`: its single instance attribute is the
prompt-template directory. -/
structure BasePromptTemplateFactory where
  prompt_templates_dir : Path
deriving DecidableEq, Repr

namespace BasePromptTemplateFactory

/-- Embedding of `BasePromptTemplateFactory.__init__(prompt_templates_dir=None)`: the given
directory, or the directory of the module file when `None`. -/
def init (module_dir : Path) (prompt_templates_dir : Option Path) :
    BasePromptTemplateFactory :=
  match prompt_templates_dir with
  | none => { prompt_templates_dir := module_dir }
  | some d => { prompt_templates_dir := d }

/-- Embedding of `BasePromptTemplateFactory.get_chat_prompt_template(name)`: joins
`prompt_templates_dir / "system_message_prompt_template_" + name + ".j2"` and
loads a chat prompt template from it (the loader's placeholder key keeps its
default `'chat_history'`). -/
def get_chat_prompt_template (J : Jinja) (fs : FS)
    (self : BasePromptTemplateFactory)
    (system_message_prompt_template_name : String) :
    ChatPromptTemplate × List FileRead :=
  let system_message_prompt_template_path :=
    self.prompt_templates_dir ++
      ["system_message_prompt_template_" ++ system_message_prompt_template_name ++ ".j2"]
  PromptTemplateLoader.load_chat_prompt_template_from_j2 J fs
    system_message_prompt_template_path "chat_history"

/-- Embedding of `BasePromptTemplateFactory.safe_get_chat_prompt_template(name, kwargs=None)`:
joins the same system-prefixed path and loads through
`safe_load_chat_prompt_template_from_j2` (placeholder key keeps its default
`'chat_history'`). -/
def safe_get_chat_prompt_template (J : Jinja) (fs : FS)
    (self : BasePromptTemplateFactory)
    (system_message_prompt_template_name : String)
    (system_message_prompt_template_format_kwargs : Option Kwargs) :
    ChatPromptTemplate × List FileRead :=
  let system_message_prompt_template_path :=
    self.prompt_templates_dir ++
      ["system_message_prompt_template_" ++ system_message_prompt_template_name ++ ".j2"]
  PromptTemplateLoader.safe_load_chat_prompt_template_from_j2 J fs
    system_message_prompt_template_path
    system_message_prompt_template_format_kwargs "chat_history"

/-- Embedding of `BasePromptTemplateFactory.get_message_prompt_template(name)`: joins
`prompt_templates_dir / "human_message_prompt_template_" + name + ".j2"` and
loads a human message prompt template from it. -/
def get_message_prompt_template (J : Jinja) (fs : FS)
    (self : BasePromptTemplateFactory)
    (message_prompt_template_name : String) :
    MessagePromptTemplate × List FileRead :=
  let human_message_prompt_template_path :=
    self.prompt_templates_dir ++
      ["human_message_prompt_template_" ++ message_prompt_template_name ++ ".j2"]
  PromptTemplateLoader.load_human_message_prompt_template_from_j2 J fs
    human_message_prompt_template_path

/-- Embedding of `BasePromptTemplateFactory.get_prompt_template(name)`: joins
`prompt_templates_dir / name + ".j2"` and loads through
`load_prompt_template_from_j2`. -/
def get_prompt_template (J : Jinja) (fs : FS)
    (self : BasePromptTemplateFactory)
    (prompt_template_name : String) : PromptTemplate × List FileRead :=
  let prompt_template_path :=
    self.prompt_templates_dir ++ [prompt_template_name ++ ".j2"]
  PromptTemplateLoader.load_prompt_template_from_j2 J fs prompt_template_path

/-- Embedding of `BasePromptTemplateFactory.set_sub_dir(sub_dir)`: replaces
`prompt_templates_dir` by `prompt_templates_dir / sub_dir` (the method also
prints the new directory, a pure console effect). -/
def set_sub_dir (self : BasePromptTemplateFactory) (sub_dir : Path) :
    BasePromptTemplateFactory :=
  { self with prompt_templates_dir := self.prompt_templates_dir ++ sub_dir }

end BasePromptTemplateFactory

/-- The spec's description of `get_prompt_template`: exactly the direct
external-library call `PromptTemplate.from_file` on
`prompt_templates_dir / (name + ".j2")` with `template_format='jinja2'` and
`encoding='utf-8'`, and nothing else. -/
def get_prompt_template_spec (J : Jinja) (fs : FS)
    (self : BasePromptTemplateFactory)
    (prompt_template_name : String) : PromptTemplate × List FileRead :=
  PromptTemplate.from_file J fs
    (self.prompt_templates_dir ++ [prompt_template_name ++ ".j2"])
    TemplateFormat.jinja2 "utf-8"

/-! ### Helper lemmas -/

/-- The required input variables of the chat template built by
`safe_format_message_prompt_template` are exactly the input variables of the
message prompt templates in the list (concrete messages contribute none). -/
theorem mem_input_variables_toMessageLike (mpts : List MessageOrTemplate)
    (v : String) :
    v ∈ (ChatPromptTemplate.mk (mpts.map toMessageLike)
          TemplateFormat.fString).input_variables ↔
      ∃ t, Sum.inl t ∈ mpts ∧ v ∈ t.input_variables := by
  unfold ChatPromptTemplate.input_variables
  simp only [List.mem_flatMap, List.mem_map]
  constructor
  · rintro ⟨ml, ⟨x, hx, rfl⟩, hv⟩
    cases x with
    | inl t => exact ⟨t, hx, hv⟩
    | inr m => simp [toMessageLike, MessageLike.input_variables] at hv
  · rintro ⟨t, ht, hv⟩
    exact ⟨MessageLike.tmpl t, ⟨Sum.inl t, ht, rfl⟩, hv⟩

/-- Formatting a list of templates and messages never fails: templates render
through the engine, messages pass through. -/
theorem expandAll_map_toMessageLike (J : Jinja) (kw : Kwargs)
    (l : List MessageOrTemplate) :
    expandAll J kw (l.map toMessageLike) =
      Except.ok (l.map (Sum.elim (fun t => t.format J kw) id)) := by
  induction l with
  | nil => rfl
  | cons x l ih =>
    cases x with
    | inl t => simp [toMessageLike, expandAll, expandMessage, ih]
    | inr m => simp [toMessageLike, expandAll, expandMessage, ih]

/-- Characterization of `safe_format_message_prompt_template`: it is the
library's validation check followed by plain formatting. -/
theorem safe_format_message_prompt_template_eq (J : Jinja)
    (mpts : List MessageOrTemplate) (kw : Kwargs) :
    safe_format_message_prompt_template J mpts kw =
      if (ChatPromptTemplate.mk (mpts.map toMessageLike)
            TemplateFormat.fString).input_variables.all
          (fun v => (kw.lookup v).isSome) then
        Except.ok (mpts.map (Sum.elim (fun t => t.format J kw) id))
      else
        Except.error "missing variables" := by
  by_cases hc : (ChatPromptTemplate.mk (mpts.map toMessageLike)
      TemplateFormat.fString).input_variables.all
        (fun v => (kw.lookup v).isSome) = true
  · rw [if_pos hc]
    unfold safe_format_message_prompt_template ChatPromptTemplate.invoke
    dsimp only
    rw [if_pos hc, expandAll_map_toMessageLike]
    rfl
  · rw [if_neg hc]
    unfold safe_format_message_prompt_template ChatPromptTemplate.invoke
    dsimp only
    rw [if_neg hc]

/-! ### The claims -/

/-- C1: `safe_format_message_prompt_template` raises an error if and only if
some input variable required by one of the message prompt templates in the
list is missing from `format_kwargs` (the error surfacing through
`ChatPromptTemplate.invoke`, the library's validation path), and when no
variable is missing it returns the list of formatted `BaseMessage` objects
produced by `to_messages`: each template rendered against the kwargs, each
concrete message passed through unchanged. -/
theorem safe_format_errors_iff_missing_variable (J : Jinja)
    (mpts : List MessageOrTemplate) (kw : Kwargs) :
    ((∃ e, safe_format_message_prompt_template J mpts kw = Except.error e) ↔
      ∃ t, Sum.inl t ∈ mpts ∧ ∃ v ∈ t.input_variables, kw.lookup v = none)
    ∧ ((∀ t, Sum.inl t ∈ mpts → ∀ v ∈ t.input_variables, (kw.lookup v).isSome) →
      safe_format_message_prompt_template J mpts kw =
        Except.ok (mpts.map (Sum.elim (fun t => t.format J kw) id))) := by
  rw [safe_format_message_prompt_template_eq]
  by_cases hc : (ChatPromptTemplate.mk (mpts.map toMessageLike)
      TemplateFormat.fString).input_variables.all
        (fun v => (kw.lookup v).isSome) = true
  · rw [if_pos hc]
    have hall := List.all_eq_true.mp hc
    constructor
    · constructor
      · rintro ⟨e, he⟩
        exact absurd he (by simp)
      · rintro ⟨t, ht, v, hv, hnone⟩
        have hvmem : v ∈ (ChatPromptTemplate.mk (mpts.map toMessageLike)
            TemplateFormat.fString).input_variables :=
          (mem_input_variables_toMessageLike mpts v).mpr ⟨t, ht, hv⟩
        have := hall v hvmem
        rw [hnone] at this
        exact absurd this (by simp)
    · intro _
      rfl
  · rw [if_neg hc]
    constructor
    · constructor
      · intro _
        have hex : ∃ v ∈ (ChatPromptTemplate.mk (mpts.map toMessageLike)
            TemplateFormat.fString).input_variables, ¬ ((kw.lookup v).isSome = true) := by
          by_contra hno
          push_neg at hno
          exact hc (List.all_eq_true.mpr fun v hv => hno v hv)
        obtain ⟨v, hv, hnone⟩ := hex
        obtain ⟨t, ht, hvt⟩ := (mem_input_variables_toMessageLike mpts v).mp hv
        exact ⟨t, ht, v, hvt, Option.not_isSome_iff_eq_none.mp hnone⟩
      · intro _
        exact ⟨"missing variables", rfl⟩
    · intro hall
      exfalso
      apply hc
      apply List.all_eq_true.mpr
      intro v hv
      obtain ⟨t, ht, hvt⟩ := (mem_input_variables_toMessageLike mpts v).mp hv
      exact hall t ht v hvt

/-- C2: `get_chat_prompt_template` and `safe_get_chat_prompt_template` read
the file `prompt_templates_dir / ("system_message_prompt_template_" + name +
".j2")`, while `get_message_prompt_template` reads `prompt_templates_dir /
("human_message_prompt_template_" + name + ".j2")`; the role of the loaded
message is system for the former and human for the latter, determined solely
by the prefix the method prepends. -/
theorem file_name_prefix_determines_role (J : Jinja) (fs : FS)
    (self : BasePromptTemplateFactory) (n : String) (kw : Option Kwargs) :
    (self.get_chat_prompt_template J fs n).2 =
      [⟨self.prompt_templates_dir ++
          ["system_message_prompt_template_" ++ n ++ ".j2"], "utf-8"⟩]
    ∧ (self.safe_get_chat_prompt_template J fs n kw).2 =
      [⟨self.prompt_templates_dir ++
          ["system_message_prompt_template_" ++ n ++ ".j2"], "utf-8"⟩]
    ∧ (self.get_message_prompt_template J fs n).2 =
      [⟨self.prompt_templates_dir ++
          ["human_message_prompt_template_" ++ n ++ ".j2"], "utf-8"⟩]
    ∧ (self.get_chat_prompt_template J fs n).1.messages =
      [MessageLike.tmpl
        (PromptTemplateLoader.load_system_message_prompt_template_from_j2 J fs
          (self.prompt_templates_dir ++
            ["system_message_prompt_template_" ++ n ++ ".j2"])).1,
       MessageLike.placeholder "chat_history"]
    ∧ (PromptTemplateLoader.load_system_message_prompt_template_from_j2 J fs
        (self.prompt_templates_dir ++
          ["system_message_prompt_template_" ++ n ++ ".j2"])).1.role = Role.system
    ∧ (self.get_message_prompt_template J fs n).1.role = Role.human :=
  ⟨rfl, rfl, rfl, rfl, rfl, rfl⟩

/-- C3: `get_prompt_template(name)` is exactly the direct external-library
call `PromptTemplate.from_file(prompt_templates_dir / (name + ".j2"),
template_format='jinja2', encoding='utf-8')`: the wrapper adds only
path-string assembly. -/
theorem get_prompt_template_refines_spec (J : Jinja) (fs : FS)
    (self : BasePromptTemplateFactory) (n : String) :
    self.get_prompt_template J fs n = get_prompt_template_spec J fs self n :=
  rfl

/-- C4: every file-reading operation of the package — the top-level
`load_prompt_template`, `load_prompt_template_from_j2` and the
system/human/ai message-prompt-template loaders — reads the file with
encoding utf-8, for every input path. -/
theorem loaders_read_utf8 (J : Jinja) (fs : FS) (p : Path) :
    (load_prompt_template fs p).2.map FileRead.encoding = ["utf-8"]
    ∧ (PromptTemplateLoader.load_prompt_template_from_j2 J fs p).2.map
        FileRead.encoding = ["utf-8"]
    ∧ (PromptTemplateLoader.load_system_message_prompt_template_from_j2 J fs
        p).2.map FileRead.encoding = ["utf-8"]
    ∧ (PromptTemplateLoader.load_human_message_prompt_template_from_j2 J fs
        p).2.map FileRead.encoding = ["utf-8"]
    ∧ (PromptTemplateLoader.load_ai_message_prompt_template_from_j2 J fs
        p).2.map FileRead.encoding = ["utf-8"] :=
  ⟨rfl, rfl, rfl, rfl, rfl⟩

/-- C5: every non-deprecated loader ending in `_from_j2`, and both
chat-prompt-template builders, pass `template_format='jinja2'` to the library
constructor they call; none leaves the library default (f-string) in
effect. -/
theorem loaders_pass_jinja2 (J : Jinja) (fs : FS) (p : Path) (k : String)
    (kw : Option Kwargs) :
    (PromptTemplateLoader.load_prompt_template_from_j2 J fs p).1.template_format
      = TemplateFormat.jinja2
    ∧ (PromptTemplateLoader.load_system_message_prompt_template_from_j2 J fs
        p).1.template_format = TemplateFormat.jinja2
    ∧ (PromptTemplateLoader.load_human_message_prompt_template_from_j2 J fs
        p).1.template_format = TemplateFormat.jinja2
    ∧ (PromptTemplateLoader.load_ai_message_prompt_template_from_j2 J fs
        p).1.template_format = TemplateFormat.jinja2
    ∧ (PromptTemplateLoader.load_message_prompt_template_from_j2 J fs p
        "system").1.map MessagePromptTemplate.template_format
      = some TemplateFormat.jinja2
    ∧ (PromptTemplateLoader.load_message_prompt_template_from_j2 J fs p
        "human").1.map MessagePromptTemplate.template_format
      = some TemplateFormat.jinja2
    ∧ (PromptTemplateLoader.load_message_prompt_template_from_j2 J fs p
        "ai").1.map MessagePromptTemplate.template_format
      = some TemplateFormat.jinja2
    ∧ (PromptTemplateLoader.load_chat_prompt_template_from_j2 J fs p
        k).1.template_format = TemplateFormat.jinja2
    ∧ (PromptTemplateLoader.safe_load_chat_prompt_template_from_j2 J fs p kw
        k).1.template_format = TemplateFormat.jinja2 :=
  ⟨rfl, rfl, rfl, rfl, rfl, rfl, rfl, rfl, rfl⟩

/-- C6: on a factory whose root directory was extended by one `set_sub_dir`
call, every template path produced by the four getters is
`root / sub_dir / file_name`: the root, one sub-directory level, then the
template file. -/
theorem factory_paths_two_level (J : Jinja) (fs : FS) (root sub : Path)
    (n : String) (kw : Option Kwargs) :
    (((BasePromptTemplateFactory.mk root).set_sub_dir sub).get_chat_prompt_template
        J fs n).2.map FileRead.path =
      [root ++ sub ++ ["system_message_prompt_template_" ++ n ++ ".j2"]]
    ∧ (((BasePromptTemplateFactory.mk root).set_sub_dir sub).safe_get_chat_prompt_template
        J fs n kw).2.map FileRead.path =
      [root ++ sub ++ ["system_message_prompt_template_" ++ n ++ ".j2"]]
    ∧ (((BasePromptTemplateFactory.mk root).set_sub_dir sub).get_message_prompt_template
        J fs n).2.map FileRead.path =
      [root ++ sub ++ ["human_message_prompt_template_" ++ n ++ ".j2"]]
    ∧ (((BasePromptTemplateFactory.mk root).set_sub_dir sub).get_prompt_template
        J fs n).2.map FileRead.path =
      [root ++ sub ++ [n ++ ".j2"]] :=
  ⟨rfl, rfl, rfl, rfl⟩

/-- C7: `load_chat_prompt_template_from_j2` returns exactly
`ChatPromptTemplate.from_messages` on the two-element list consisting of the
system message prompt template loaded from the path followed by
`MessagesPlaceholder(key)`, with the key defaulting to `'chat_history'`;
system message first, placeholder second. -/
theorem chat_prompt_template_structure (J : Jinja) (fs : FS) (p : Path)
    (k : String) :
    (PromptTemplateLoader.load_chat_prompt_template_from_j2 J fs p k).1 =
      ChatPromptTemplate.from_messages
        [MessageLike.tmpl
          (PromptTemplateLoader.load_system_message_prompt_template_from_j2
            J fs p).1,
         MessageLike.placeholder k]
        TemplateFormat.jinja2
    ∧ PromptTemplateLoader.load_chat_prompt_template_from_j2_default J fs p =
      PromptTemplateLoader.load_chat_prompt_template_from_j2 J fs p
        "chat_history" :=
  ⟨rfl, rfl⟩

/-- C8: for a `message_type` outside system/human/ai,
`load_message_prompt_template_from_j2` returns `None` without reading any
file (empty read trace); for each of the three listed values it dispatches to
the corresponding loader on the same path. -/
theorem load_message_prompt_template_dispatch (J : Jinja) (fs : FS) (p : Path)
    (message_type : String) :
    (message_type ≠ "system" → message_type ≠ "human" → message_type ≠ "ai" →
      PromptTemplateLoader.load_message_prompt_template_from_j2 J fs p
        message_type = (none, []))
    ∧ PromptTemplateLoader.load_message_prompt_template_from_j2 J fs p "system"
      = (some (PromptTemplateLoader.load_system_message_prompt_template_from_j2
          J fs p).1,
         (PromptTemplateLoader.load_system_message_prompt_template_from_j2
          J fs p).2)
    ∧ PromptTemplateLoader.load_message_prompt_template_from_j2 J fs p "human"
      = (some (PromptTemplateLoader.load_human_message_prompt_template_from_j2
          J fs p).1,
         (PromptTemplateLoader.load_human_message_prompt_template_from_j2
          J fs p).2)
    ∧ PromptTemplateLoader.load_message_prompt_template_from_j2 J fs p "ai"
      = (some (PromptTemplateLoader.load_ai_message_prompt_template_from_j2
          J fs p).1,
         (PromptTemplateLoader.load_ai_message_prompt_template_from_j2
          J fs p).2) := by
  refine ⟨?_, rfl, rfl, rfl⟩
  intro h1 h2 h3
  simp [PromptTemplateLoader.load_message_prompt_template_from_j2, h1, h2, h3]

/-- C9: `safe_load_chat_prompt_template_from_j2` and
`safe_get_chat_prompt_template` behave identically on an empty kwargs dict
and on `None`: both are falsy, so both take the `format()` branch. -/
theorem safe_load_empty_kwargs_matches_none (J : Jinja) (fs : FS) (p : Path)
    (k : String) (self : BasePromptTemplateFactory) (n : String) :
    PromptTemplateLoader.safe_load_chat_prompt_template_from_j2 J fs p
        (some []) k =
      PromptTemplateLoader.safe_load_chat_prompt_template_from_j2 J fs p none k
    ∧ self.safe_get_chat_prompt_template J fs n (some []) =
      self.safe_get_chat_prompt_template J fs n none :=
  ⟨rfl, rfl⟩

/-- C10: `set_sub_dir` replaces the factory's only attribute,
`prompt_templates_dir`, by `prompt_templates_dir / sub_dir`; composing two
calls appends both sub-directories in order, so the method is not
idempotent. -/
theorem set_sub_dir_appends_sub_dir (f : BasePromptTemplateFactory)
    (s1 s2 : Path) :
    f.set_sub_dir s1 =
      { prompt_templates_dir := f.prompt_templates_dir ++ s1 }
    ∧ ((f.set_sub_dir s1).set_sub_dir s2).prompt_templates_dir =
      f.prompt_templates_dir ++ s1 ++ s2
    ∧ ∃ g : BasePromptTemplateFactory, ∃ s : Path,
        (g.set_sub_dir s).set_sub_dir s ≠ g.set_sub_dir s :=
  ⟨rfl, rfl, ⟨{ prompt_templates_dir := [] }, ["a"], by decide⟩⟩

/-! ### Witnesses -/

/-- A concrete engine for witnesses: one template `"greet"` with one input
variable `"name"`, rendered by looking the name up. -/
def J1 : Jinja :=
  { extractVars := fun t => if t = "greet" then ["name"] else [],
    render := fun t k =>
      match k.lookup "name" with
      | some (Value.str s) => s
      | _ => t }

/-- A concrete input list: one system message prompt template over `"greet"`. -/
def mpts1 : List MessageOrTemplate :=
  [Sum.inl { role := Role.system, template := "greet",
             template_format := TemplateFormat.jinja2,
             input_variables := ["name"] }]

/-- Concrete kwargs binding `"name"`. -/
def kw1 : Kwargs := [("name", Value.str "Bob")]

/-- Witness for C1: with the required variable present, the safe format
succeeds and returns the formatted messages. -/
theorem safe_format_errors_iff_missing_variable_witness :
    safe_format_message_prompt_template J1 mpts1 kw1 =
      Except.ok (mpts1.map (Sum.elim (fun t => t.format J1 kw1) id)) :=
  (safe_format_errors_iff_missing_variable J1 mpts1 kw1).2 (by
    intro t ht v hv
    simp only [mpts1, List.mem_singleton, Sum.inl.injEq] at ht
    subst ht
    simp only [List.mem_singleton] at hv
    subst hv
    decide)

/-- A trivial concrete engine. -/
def J0 : Jinja := { extractVars := fun _ => [], render := fun t _ => t }

/-- An empty concrete filesystem. -/
def fs0 : FS := fun _ => ""

/-- Witness for C8: the unlisted message type `"tool"` yields `None` and no
file read. -/
theorem load_message_prompt_template_dispatch_witness :
    PromptTemplateLoader.load_message_prompt_template_from_j2 J0 fs0 [] "tool"
      = (none, []) :=
  (load_message_prompt_template_dispatch J0 fs0 [] "tool").1
    (by decide) (by decide) (by decide)

end PromptCollection
